import Mathlib

/-!
Shallow embedding of the CI-failure remediation agent (`agent.py`) and proofs
of its specified properties.

Strings are modelled as `String` / `List Char`.  Python string primitives used
by the source (`str.splitlines`, `"\n".join`, `str.strip`, substring search,
slicing) are embedded as executable Lean functions.  The three regular
expressions in the source are small enough that each is embedded as a direct
deterministic matcher whose behaviour coincides with Python `re.search`
semantics (leftmost match position; greedy quantifiers; the only place where
greedy backtracking is observable — the final `\s+([^\n]+)` of the
version-conflict patterns, whose two pieces overlap on non-newline whitespace
— is modelled with explicit longest-first backtracking).
-/

/-- Python whitespace, for `str.strip()` and for the regex class `\s`
(CPython 3.11 recognizes the same set for both: tab through carriage return,
the separator controls 1C-1F, space, next line 85, and the Unicode space
characters A0, 1680, 2000-200A, 2028, 2029, 202F, 205F, 3000). -/
def pyIsSpace (c : Char) : Bool :=
  c = ' ' || c = '\t' || c = '\n' || c = '\r' || c = '\u000b' || c = '\u000c'
  || c = '\u001c' || c = '\u001d' || c = '\u001e' || c = '\u001f'
  || c = '\u0085' || c = '\u00a0' || c = '\u1680'
  || (0x2000 ≤ c.toNat && c.toNat ≤ 0x200a)
  || c = '\u2028' || c = '\u2029' || c = '\u202f' || c = '\u205f' || c = '\u3000'

/-- The line-boundary characters of Python `str.splitlines`: line feed,
vertical tab, form feed, carriage return, the separator controls 1C-1E,
next line 85, line separator 2028 and paragraph separator 2029 (`"\r\n"`
counts as a single boundary). -/
def isLineBreakChar (c : Char) : Bool :=
  c = '\n' || c = '\r' || c = '\u000b' || c = '\u000c'
  || c = '\u001c' || c = '\u001d' || c = '\u001e'
  || c = '\u0085' || c = '\u2028' || c = '\u2029'

/-- The quote characters of the character class `['\"]` in the
missing-dependency regular expression. -/
def isQuote (c : Char) : Bool :=
  c = '\'' || c = '"'

/-- Core of Python `str.splitlines`, over the full boundary set of
`isLineBreakChar`: accumulates the current line in reverse in `acc`;
`afterCR` records that the previous character was a line-ending `'\r'`, so
that the `'\n'` of a `"\r\n"` pair is swallowed rather than ending a second
line; a trailing boundary produces no extra empty line, matching Python. -/
def pySplitlinesAux : List Char → List Char → Bool → List (List Char)
  | [], acc, _ => if acc.isEmpty then [] else [acc.reverse]
  | c :: rest, acc, afterCR =>
    if c = '\n' then
      if afterCR then pySplitlinesAux rest [] false
      else acc.reverse :: pySplitlinesAux rest [] false
    else if c = '\r' then acc.reverse :: pySplitlinesAux rest [] true
    else if isLineBreakChar c then acc.reverse :: pySplitlinesAux rest [] false
    else pySplitlinesAux rest (c :: acc) false

/-- Python `str.splitlines` on the character list of a string. -/
def pySplitlines (cs : List Char) : List (List Char) :=
  pySplitlinesAux cs [] false

/-- Python `"\n".join(lines)`. -/
def joinLines : List (List Char) → List Char
  | [] => []
  | [l] => l
  | l :: l2 :: ls => l ++ '\n' :: joinLines (l2 :: ls)

/-- Python `str.strip()`: drop whitespace from both ends. -/
def pyStrip (cs : List Char) : List Char :=
  ((cs.dropWhile pyIsSpace).reverse.dropWhile pyIsSpace).reverse

/-- Number of `'\n'` characters at the very end of a character list
(used to state "the file ends with exactly one trailing newline"). -/
def trailingNewlines (cs : List Char) : Nat :=
  (cs.reverse.takeWhile (fun c => c = '\n')).length

/-- `re.search` position scan: try the matcher at every start position, left
to right, returning the first success.  Each of the embedded matchers is
deterministic at a fixed start position (see the matcher comments), so this
scan is exactly Python `re.search`. -/
def scanFirst {α : Type} (f : List Char → Option α) : List Char → Option α
  | [] => f []
  | c :: rest =>
    match f (c :: rest) with
    | some a => some a
    | none => scanFirst f rest

/-- Python `needle in hay` substring test. -/
def containsSub (hay needle : List Char) : Bool :=
  (scanFirst (fun cs => if needle.isPrefixOf cs then some () else none) hay).isSome

/-! ### The missing-dependency pattern

`re.search(r"No module named ['\"]([^'\"]+)['\"]", logs)` (agent.py line 42).
At a fixed position the pattern is deterministic: the literal, one quote,
then the greedy class `[^'\"]+` runs to the first quote character (shrinking
it on backtracking can never satisfy the closing `['\"]`, since every
given-back character is a non-quote), which must exist and be preceded by at
least one class character. -/

/-- The literal prefix `No module named ` of the missing-dependency regex. -/
def nmnLit : List Char := "No module named ".data

/-- Attempt the missing-dependency pattern at the start of `cs`; returns the
capture group `[^'\"]+` on success. -/
def matchMissingDepAt (cs : List Char) : Option (List Char) :=
  if nmnLit.isPrefixOf cs then
    match cs.drop nmnLit.length with
    | q :: rest =>
      if isQuote q then
        let g := rest.takeWhile (fun c => !isQuote c)
        if g.isEmpty then none
        else if g.length < rest.length then some g else none
      else none
    | [] => none
  else none

/-- `find_missing_dependency` (agent.py lines 41-43):
`m = re.search(r"No module named ['\"]([^'\"]+)['\"]", logs)` and
`m.group(1).strip()` on success. -/
def find_missing_dependency (logs : String) : Option String :=
  (scanFirst matchMissingDepAt logs.data).map (fun g => String.mk (pyStrip g))

/-! ### The version-conflict patterns

`find_python_version_conflict` (agent.py lines 46-65) tries, in order,
`r"Package\s+([^\s]+)\s+requires Python\s+([^\n]+)"` and
`r"Requires-Python\s+([^\n]+)"`, each with `re.search` over the whole buffer;
the first pattern that matches anywhere wins. -/

/-- Match `\s+([^\n]+)` given that at least one whitespace character has
already been consumed; extends `\s+` greedily (longest first, with
backtracking: a given-back non-newline whitespace character may start the
group, exactly as in Python).  Returns the group `[^\n]+`. -/
def wsThenLineAux : List Char → Option (List Char)
  | [] => none
  | c :: rest =>
    if pyIsSpace c then
      match wsThenLineAux rest with
      | some g => some g
      | none => if c = '\n' then none else some (c :: rest.takeWhile (fun d => d ≠ '\n'))
    else
      if c = '\n' then none else some (c :: rest.takeWhile (fun d => d ≠ '\n'))

/-- Match `\s+([^\n]+)` at the start of `cs`, Python-greedy. -/
def matchWsPlusThenRestOfLine (cs : List Char) : Option (List Char) :=
  match cs with
  | [] => none
  | c :: rest => if pyIsSpace c then wsThenLineAux rest else none

/-- The literal `Package` of the first version-conflict pattern. -/
def pkgLit : List Char := "Package".data

/-- The literal `requires Python` of the first version-conflict pattern
(the inner space is a literal, matching exactly one space). -/
def reqPyLit : List Char := "requires Python".data

/-- The literal `Requires-Python` of the second version-conflict pattern. -/
def rpLit : List Char := "Requires-Python".data

/-- Attempt `Package\s+([^\s]+)\s+requires Python\s+([^\n]+)` at the start of
`cs`.  Every adjacent pair of pieces up to the literal `requires Python` has
disjoint character classes, so each greedy piece is a maximal run with no
observable backtracking; the trailing `\s+([^\n]+)` uses the backtracking
matcher. -/
def matchPackageConflictAt (cs : List Char) : Option (List Char × List Char) :=
  if pkgLit.isPrefixOf cs then
    let r1 := cs.drop pkgLit.length
    let ws1 := r1.takeWhile pyIsSpace
    if ws1.isEmpty then none
    else
      let r2 := r1.drop ws1.length
      let g1 := r2.takeWhile (fun c => !pyIsSpace c)
      if g1.isEmpty then none
      else
        let r3 := r2.drop g1.length
        let ws2 := r3.takeWhile pyIsSpace
        if ws2.isEmpty then none
        else
          let r4 := r3.drop ws2.length
          if reqPyLit.isPrefixOf r4 then
            match matchWsPlusThenRestOfLine (r4.drop reqPyLit.length) with
            | some g2 => some (g1, g2)
            | none => none
          else none
  else none

/-- Attempt `Requires-Python\s+([^\n]+)` at the start of `cs`. -/
def matchRequiresPythonAt (cs : List Char) : Option (List Char) :=
  if rpLit.isPrefixOf cs then matchWsPlusThenRestOfLine (cs.drop rpLit.length)
  else none

/-- `re.search` of the first version-conflict pattern over the buffer. -/
def searchPackageConflict (cs : List Char) : Option (List Char × List Char) :=
  scanFirst matchPackageConflictAt cs

/-- `re.search` of the second version-conflict pattern over the buffer. -/
def searchRequiresPython (cs : List Char) : Option (List Char) :=
  scanFirst matchRequiresPythonAt cs

/-- `find_python_version_conflict` (agent.py lines 46-65): patterns tried in
order over the whole buffer; a two-group match returns
`(m.group(1), m.group(2))`, a one-group match returns
`("unknown-package", m.group(1))`; otherwise `None`. -/
def find_python_version_conflict (logs : String) : Option (String × String) :=
  match searchPackageConflict logs.data with
  | some (p, c) => some (String.mk p, String.mk c)
  | none =>
    match searchRequiresPython logs.data with
    | some c => some ("unknown-package", String.mk c)
    | none => none

/-! ### Log excerpt -/

/-- The line window selected by `make_log_excerpt` (agent.py lines 68-72):
`idx` is the index of the first line containing `ERROR` or
`ModuleNotFoundError` as a substring (default `0`), and the window is the
Python slice `lines[max(0, idx - 10) : idx + 10]` (`Nat` subtraction is
already clamped at zero). -/
def excerptSnippet (logs : String) : List (List Char) :=
  let lines := pySplitlines logs.data
  let idx := (lines.findIdx? (fun l =>
    containsSub l "ERROR".data || containsSub l "ModuleNotFoundError".data)).getD 0
  (lines.drop (idx - 10)).take (idx + 10 - (idx - 10))

/-- `make_log_excerpt` (agent.py lines 68-78) with the source's default
`max_chars = 1800` (the `max_lines` parameter is unused by the source body):
join the window, strip it, and hard-cap it at 1800 characters with an
explicit truncation marker. -/
def make_log_excerpt (logs : String) : String :=
  if (pyStrip (joinLines (excerptSnippet logs))).length > 1800 then
    String.mk ((pyStrip (joinLines (excerptSnippet logs))).take 1800 ++ "\n... (truncated)".data)
  else String.mk (pyStrip (joinLines (excerptSnippet logs)))

/-! ### Filesystem mutation and publication -/

/-- `FilesystemTool.add_dependency` (agent.py lines 152-158) as a pure
function from the current `requirements.txt` content to the new content:
`content = req.read_text().splitlines()`; if `dep not in content`, append and
`req.write_text("\n".join(content) + "\n")`, otherwise leave the file
untouched. -/
def add_dependency (dep : String) (content : String) : String :=
  let lines := pySplitlines content.data
  if dep.data ∈ lines then content
  else String.mk (joinLines (lines ++ [dep.data]) ++ ['\n'])

/-- The comments posted by `CIFixAgent.run`, identified by branch and
parameters and abstracted from their full bodies (the body of the
version-conflict comment is cut off at agent.py line 207, where the source
file ends mid-string; its identity and parameters are visible at lines
199-204). -/
inductive Msg : Type
  | proposeDependencyFix (dep : String)
  | dependencyFixed (dep : String)
  | versionConflict (pkg : String) (constraint : String)
  | noKnownFix
deriving DecidableEq, Repr

/-- Observable repository effects of one agent run. -/
inductive AgentAction : Type
  | postComment (m : Msg)
  | writeManifest (content : String)
  | gitCommitPush (dep : String) (branch : String)
deriving DecidableEq, Repr

/-- `commit_and_push_fix` (agent.py lines 19-35) as its list of
version-control effects: `git status --porcelain` is the collaborator's
change-detection, modelled by the `pendingChanges` flag; when it reports
nothing pending the function returns before staging, committing or pushing
(the bot-identity `git config` calls mutate no repository content and are
not modelled as actions). -/
def commit_and_push_fix (dep : String) (branch : String) (pendingChanges : Bool) : List AgentAction :=
  if pendingChanges then [AgentAction.gitCommitPush dep branch] else []

/-- Failure classifications, §4.1 of the specification. -/
inductive Finding : Type
  | missingDependency (module : String)
  | runtimeVersionConflict (pkg : String) (constraint : String)
deriving DecidableEq, Repr

/-- The classification dispatch of `CIFixAgent.run` (agent.py lines 174-199):
`find_missing_dependency` is consulted first and its result is used iff it is
truthy in Python (`if dep:`), i.e. present and nonempty; otherwise
`find_python_version_conflict` is consulted. -/
def classify (logs : String) : Option Finding :=
  match find_missing_dependency logs with
  | some dep =>
    if dep.data.isEmpty then
      match find_python_version_conflict logs with
      | some (p, c) => some (Finding.runtimeVersionConflict p c)
      | none => none
    else some (Finding.missingDependency dep)
  | none =>
    match find_python_version_conflict logs with
    | some (p, c) => some (Finding.runtimeVersionConflict p c)
    | none => none

/-- The approval decision of `CIFixAgent.run` (agent.py line 171):
`approved = os.environ.get("CI_JANITOR_APPROVED") == "1"`.  The list of
pull-request comment bodies is accepted here to match the specification's
gate interface `decide(finding, approvalSignal, commentBodies)` (§4.2), but
the source derives the decision from the environment flag alone and never
reads the comments. -/
def decide_approval (approvalSignal : Option String) (commentBodies : List String) : Bool :=
  approvalSignal == some "1"

/-- The approval token a human must post, per the instruction text of the
diagnosis comment (agent.py line 186). -/
def approvalToken : String := "/ci-janitor approve"

/-- Levels 2 and 3 of `CIFixAgent.run` (agent.py lines 197 onward): the
version-conflict branch posts a single diagnosis comment and returns;
otherwise a fallback comment is posted.  Neither branch touches the manifest
or the branch.  The fallback comment is `Msg.noKnownFix`, modelled from the
spec: the source file is truncated at line 207 (inside the version-conflict
comment string), and §4.3 requires a generic "no known fix" comment for the
`Unclassified` terminal action. -/
def runConflictOrFallback (logs : String) (manifest : String) : List AgentAction × String :=
  match find_python_version_conflict logs with
  | some (pkg, c) => ([AgentAction.postComment (Msg.versionConflict pkg c)], manifest)
  | none => ([AgentAction.postComment Msg.noKnownFix], manifest)

/-- `CIFixAgent.run` (agent.py lines 169-208) as a pure step function from
`(log text, approval flag, requirements.txt content, branch)` to the emitted
actions and the final manifest content.  The working tree is taken to be
clean at the start of the run, so `git status --porcelain` reports pending
changes exactly when `add_dependency` changed the file.  A truthy
missing-dependency finding (`if dep:`, line 175) is either reported for
approval or, when approved, fixed, committed and confirmed; everything else
falls through to `runConflictOrFallback`. -/
def runAgent (logs : String) (approved : Bool) (manifest : String) (branch : String) :
    List AgentAction × String :=
  match find_missing_dependency logs with
  | some dep =>
    if dep.data.isEmpty then runConflictOrFallback logs manifest
    else if approved then
      let manifest2 := add_dependency dep manifest
      ((if manifest2 = manifest then [] else [AgentAction.writeManifest manifest2]) ++
        commit_and_push_fix dep branch (manifest2 != manifest) ++
        [AgentAction.postComment (Msg.dependencyFixed dep)], manifest2)
    else ([AgentAction.postComment (Msg.proposeDependencyFix dep)], manifest)
  | none => runConflictOrFallback logs manifest

/-! ### Lemmas about the embedded string primitives -/

theorem ne_newline_of_not_break {c : Char} (h : isLineBreakChar c = false) : c ≠ '\n' := by
  intro hc
  subst hc
  exact absurd h (by decide)

theorem ne_cr_of_not_break {c : Char} (h : isLineBreakChar c = false) : c ≠ '\r' := by
  intro hc
  subst hc
  exact absurd h (by decide)

theorem pySplitlinesAux_nil (acc : List Char) (b : Bool) :
    pySplitlinesAux [] acc b = if acc.isEmpty then [] else [acc.reverse] := by
  rw [pySplitlinesAux]

theorem pySplitlinesAux_newline (rest acc : List Char) :
    pySplitlinesAux ('\n' :: rest) acc false
      = acc.reverse :: pySplitlinesAux rest [] false := by
  rw [pySplitlinesAux]; simp

theorem pySplitlinesAux_other (c : Char) (rest acc : List Char) (b : Bool)
    (h : isLineBreakChar c = false) :
    pySplitlinesAux (c :: rest) acc b = pySplitlinesAux rest (c :: acc) false := by
  rw [pySplitlinesAux]
  rw [if_neg (ne_newline_of_not_break h), if_neg (ne_cr_of_not_break h),
    if_neg (by rw [h]; exact Bool.false_ne_true)]

/-- Every line produced by `pySplitlinesAux` is free of line-boundary
characters, provided the accumulator is. -/
theorem pySplitlinesAux_bf :
    ∀ (cs acc : List Char) (b : Bool),
    (∀ c ∈ acc, isLineBreakChar c = false) →
    ∀ l ∈ pySplitlinesAux cs acc b, ∀ c ∈ l, isLineBreakChar c = false := by
  intro cs
  induction cs with
  | nil =>
    intro acc b hacc l hl
    rw [pySplitlinesAux_nil] at hl
    split at hl
    · simp at hl
    · simp at hl
      subst hl
      intro c hc
      exact hacc c (List.mem_reverse.mp hc)
  | cons ch rest ih =>
    intro acc b hacc l hl
    by_cases h1 : ch = '\n'
    · subst h1
      rw [pySplitlinesAux] at hl
      rw [if_pos rfl] at hl
      by_cases hb : b = true
      · rw [if_pos hb] at hl
        exact ih [] false (by simp) l hl
      · rw [if_neg hb] at hl
        rcases List.mem_cons.mp hl with h | h
        · subst h
          intro c hc
          exact hacc c (List.mem_reverse.mp hc)
        · exact ih [] false (by simp) l h
    · by_cases h2 : ch = '\r'
      · subst h2
        rw [pySplitlinesAux, if_neg (by decide), if_pos rfl] at hl
        rcases List.mem_cons.mp hl with h | h
        · subst h
          intro c hc
          exact hacc c (List.mem_reverse.mp hc)
        · exact ih [] true (by simp) l h
      · by_cases h3 : isLineBreakChar ch = true
        · rw [pySplitlinesAux, if_neg h1, if_neg h2, if_pos h3] at hl
          rcases List.mem_cons.mp hl with h | h
          · subst h
            intro c hc
            exact hacc c (List.mem_reverse.mp hc)
          · exact ih [] false (by simp) l h
        · have h3f : isLineBreakChar ch = false := by simpa using h3
          rw [pySplitlinesAux_other ch rest acc b h3f] at hl
          refine ih (ch :: acc) false ?_ l hl
          intro c hc
          rcases List.mem_cons.mp hc with h | h
          · subst h; exact h3f
          · exact hacc c h

/-- Lines of `pySplitlines` are free of line-boundary characters. -/
theorem pySplitlines_bf (cs : List Char) :
    ∀ l ∈ pySplitlines cs, ∀ c ∈ l, isLineBreakChar c = false :=
  pySplitlinesAux_bf cs [] false (by simp)

/-- Splitting a boundary-free line glued with `'\n'` onto a tail peels off
exactly that line. -/
theorem pySplitlinesAux_boundary (l : List Char) (hl : ∀ c ∈ l, isLineBreakChar c = false) :
    ∀ (ys acc : List Char),
    pySplitlinesAux (l ++ '\n' :: ys) acc false
      = (acc.reverse ++ l) :: pySplitlinesAux ys [] false := by
  induction l with
  | nil =>
    intro ys acc
    simp [pySplitlinesAux_newline]
  | cons c l ih =>
    intro ys acc
    have hc := hl c (List.mem_cons_self c l)
    have hl2 : ∀ d ∈ l, isLineBreakChar d = false := fun d hd => hl d (List.mem_cons_of_mem c hd)
    rw [List.cons_append, pySplitlinesAux_other c _ acc false hc, ih hl2 ys (c :: acc)]
    simp

/-- `"\n".join` of a nonempty list of boundary-free lines, followed by one
final newline, splits back into exactly that list of lines. -/
theorem pySplitlines_joinLines (ls : List (List Char)) (hne : ls ≠ [])
    (hbf : ∀ l ∈ ls, ∀ c ∈ l, isLineBreakChar c = false) :
    pySplitlines (joinLines ls ++ ['\n']) = ls := by
  induction ls with
  | nil => exact absurd rfl hne
  | cons l ls ih =>
    have hlbf : ∀ c ∈ l, isLineBreakChar c = false := hbf l (List.mem_cons_self l ls)
    have hlsbf : ∀ l2 ∈ ls, ∀ c ∈ l2, isLineBreakChar c = false :=
      fun l2 h2 => hbf l2 (List.mem_cons_of_mem l h2)
    match ls with
    | [] =>
      show pySplitlinesAux (l ++ ['\n']) [] false = [l]
      have := pySplitlinesAux_boundary l hlbf [] []
      simpa [pySplitlinesAux_nil] using this
    | l2 :: ls2 =>
      show pySplitlinesAux ((l ++ '\n' :: joinLines (l2 :: ls2)) ++ ['\n']) [] false
        = l :: l2 :: ls2
      rw [List.append_assoc, List.cons_append]
      rw [pySplitlinesAux_boundary l hlbf _ []]
      simp only [List.reverse_nil, List.nil_append, List.cons.injEq, true_and]
      exact ih (by simp) hlsbf

/-- `"\n".join (ls ++ [m])` ends with `m`. -/
theorem joinLines_append_last (ls : List (List Char)) (m : List Char) :
    ∃ p, joinLines (ls ++ [m]) = p ++ m := by
  induction ls with
  | nil => exact ⟨[], rfl⟩
  | cons l ls ih =>
    rcases ih with ⟨p, hp⟩
    match ls with
    | [] => exact ⟨l ++ ['\n'], by simp [joinLines]⟩
    | l2 :: ls2 =>
      refine ⟨l ++ '\n' :: p, ?_⟩
      simp only [List.cons_append] at hp ⊢
      rw [joinLines, hp]
      simp

/-- A `takeWhile` over a list that wholly satisfies the predicate, glued to a
first failing element, returns exactly the satisfying part. -/
theorem takeWhile_append_stop {α : Type} (p : α → Bool) (xs : List α) (y : α) (ys : List α)
    (hxs : ∀ x ∈ xs, p x = true) (hy : p y = false) :
    (xs ++ y :: ys).takeWhile p = xs := by
  induction xs with
  | nil => simp [List.takeWhile, hy]
  | cons x xs ih =>
    simp only [List.cons_append, List.takeWhile_cons, hxs x (List.mem_cons_self x xs),
      if_true, List.cons.injEq, true_and]
    exact ih fun x2 h2 => hxs x2 (List.mem_cons_of_mem x h2)

/-- `re.search` skip lemma: when no match attempt within the first `xs.length`
positions succeeds, the scan over `xs ++ ys` equals the scan over `ys`. -/
theorem scanFirst_append_none {α : Type} (f : List Char → Option α) :
    ∀ (xs ys : List Char), (∀ j, j < xs.length → f ((xs ++ ys).drop j) = none) →
    scanFirst f (xs ++ ys) = scanFirst f ys := by
  intro xs
  induction xs with
  | nil => intro ys _; rfl
  | cons x xs ih =>
    intro ys h
    have h0 : f (x :: (xs ++ ys)) = none := by
      have := h 0 (Nat.succ_pos _)
      simpa using this
    rw [List.cons_append, scanFirst, h0]
    exact ih ys fun j hj => by
      have := h (j + 1) (Nat.succ_lt_succ hj)
      simpa using this

/-- A scan whose matcher succeeds at the very first position returns that
match. -/
theorem scanFirst_cons_some {α : Type} (f : List Char → Option α) (c : Char)
    (rest : List Char) (a : α) (h : f (c :: rest) = some a) :
    scanFirst f (c :: rest) = some a := by
  rw [scanFirst, h]

/-! ### Lemmas about the manifest mutation -/

/-- When the dependency is already an entry, `add_dependency` leaves the file
untouched. -/
theorem add_dependency_present (dep content : String)
    (hmem : dep.data ∈ pySplitlines content.data) :
    add_dependency dep content = content := by
  unfold add_dependency
  rw [if_pos hmem]

/-- When a break-free dependency is absent, the rewritten file's entries are
exactly the old entries, in order, followed by the new one. -/
theorem add_dependency_lines (dep content : String)
    (hbf : ∀ c ∈ dep.data, isLineBreakChar c = false)
    (hmem : dep.data ∉ pySplitlines content.data) :
    pySplitlines (add_dependency dep content).data
      = pySplitlines content.data ++ [dep.data] := by
  unfold add_dependency
  rw [if_neg hmem]
  show pySplitlines (joinLines (pySplitlines content.data ++ [dep.data]) ++ ['\n'])
    = pySplitlines content.data ++ [dep.data]
  refine pySplitlines_joinLines _ (by simp) ?_
  intro l hl
  rcases List.mem_append.mp hl with h | h
  · exact pySplitlines_bf content.data l h
  · rw [List.mem_singleton.mp h]
    exact hbf

/-- Applying the mutation twice equals applying it once. -/
theorem add_dependency_idem (dep content : String)
    (hbf : ∀ c ∈ dep.data, isLineBreakChar c = false) :
    add_dependency dep (add_dependency dep content) = add_dependency dep content := by
  by_cases hmem : dep.data ∈ pySplitlines content.data
  · rw [add_dependency_present dep content hmem, add_dependency_present dep content hmem]
  · apply add_dependency_present
    rw [add_dependency_lines dep content hbf hmem]
    simp

/-- A freshly written manifest ends with exactly one trailing newline. -/
theorem add_dependency_trailing (dep content : String)
    (hne : dep.data ≠ []) (hbf : ∀ c ∈ dep.data, isLineBreakChar c = false)
    (hmem : dep.data ∉ pySplitlines content.data) :
    trailingNewlines (add_dependency dep content).data = 1 := by
  unfold add_dependency
  rw [if_neg hmem]
  show trailingNewlines (joinLines (pySplitlines content.data ++ [dep.data]) ++ ['\n']) = 1
  obtain ⟨p, hp⟩ := joinLines_append_last (pySplitlines content.data) dep.data
  rw [hp]
  obtain ⟨c, t, hct⟩ : ∃ c t, dep.data.reverse = c :: t := by
    match h : dep.data.reverse with
    | [] => exact absurd (by simpa using congrArg List.reverse h) hne
    | c :: t => exact ⟨c, t, rfl⟩
  have hc : c ≠ '\n' := by
    have : c ∈ dep.data := List.mem_reverse.mp (hct ▸ List.mem_cons_self c t)
    exact ne_newline_of_not_break (hbf c this)
  unfold trailingNewlines
  rw [List.reverse_append, List.reverse_singleton, List.singleton_append,
    List.takeWhile_cons, List.reverse_append, hct]
  simp [hc]

/-- A scan whose matcher succeeds at the very first position returns that
match. -/
theorem scanFirst_head_some {α : Type} (f : List Char → Option α) (cs : List Char) (a : α)
    (h : f cs = some a) : scanFirst f cs = some a := by
  match cs with
  | [] => rw [scanFirst]; exact h
  | c :: rest => rw [scanFirst, h]

/-! ### Claim theorems -/

/-- C1 (counterexample): the claim says that, absent the run-wide approval
signal, the run is `Approved` iff some comment body matches the approval
token of the finding's kind.  In the source (agent.py line 171) the decision
is `os.environ.get("CI_JANITOR_APPROVED") == "1"` and comments are never
read: with no signal and a comment equal to the exact token
`/ci-janitor approve` (the phrase requested at line 186), the decision is
still `false`, refuting the claim at this input. -/
theorem decide_approval_ignores_comments_cex :
    decide_approval none [approvalToken] = false := rfl

/-- C1 (amended): the approval decision is derived from the run-wide
environment signal alone — it is `Approved` iff `CI_JANITOR_APPROVED` is
`"1"` — and the pull-request comment bodies are never consulted, so absent
the signal the run proceeds as `Unapproved` whatever the comments contain. -/
theorem decide_approval_signal_only (signal : Option String) (commentBodies : List String) :
    decide_approval signal commentBodies = true ↔ signal = some "1" := by
  simp [decide_approval]

/-- C2 (counterexample): the claim quantifies over every module name, but
the mutation is not idempotent for a name containing a Python line-boundary
character: for the name `a`-VT-`b` (vertical tab inside) and the empty
manifest, the first application writes the name plus a newline; the second
re-reads the file's lines as `a` and `b` via `str.splitlines`
(agent.py line 154), finds the name absent, rewrites the file again — now
different — and change-detection reports pending changes, so the publish
step fires a second time. -/
theorem missing_dependency_mutation_idempotent_cex :
    add_dependency "a\u000bb" (add_dependency "a\u000bb" "") ≠ add_dependency "a\u000bb" ""
    ∧ commit_and_push_fix "a\u000bb" "main"
        (add_dependency "a\u000bb" (add_dependency "a\u000bb" "")
          != add_dependency "a\u000bb" "")
      = [AgentAction.gitCommitPush "a\u000bb" "main"] := by
  exact ⟨by decide, by decide⟩

/-- C2 (amended): applying the `MissingDependency` mutation twice in
sequence yields a manifest identical to applying it once, for every module
name free of Python line-boundary characters (the only names on which the
manifest's `str.splitlines` line structure can represent an entry); when the
module is already an entry the mutation writes nothing; and the second
application triggers no commit/push, because `commit_and_push_fix` skips
publication whenever change-detection reports no pending changes. -/
theorem missing_dependency_mutation_idempotent (dep content branch : String)
    (hbf : ∀ c ∈ dep.data, isLineBreakChar c = false) :
    add_dependency dep (add_dependency dep content) = add_dependency dep content
    ∧ (dep.data ∈ pySplitlines content.data → add_dependency dep content = content)
    ∧ commit_and_push_fix dep branch
        (add_dependency dep (add_dependency dep content) != add_dependency dep content)
      = [] := by
  have hidem := add_dependency_idem dep content hbf
  refine ⟨hidem, fun hmem => add_dependency_present dep content hmem, ?_⟩
  rw [hidem]
  simp [commit_and_push_fix]

/-- C2 (witness): the idempotence theorem at a concrete manifest. -/
theorem missing_dependency_mutation_idempotent_w :
    add_dependency "requests" (add_dependency "requests" "flask\n")
      = add_dependency "requests" "flask\n"
    ∧ commit_and_push_fix "requests" "main"
        (add_dependency "requests" (add_dependency "requests" "flask\n")
          != add_dependency "requests" "flask\n")
      = [] :=
  ⟨(missing_dependency_mutation_idempotent "requests" "flask\n" "main" (by decide)).1,
   (missing_dependency_mutation_idempotent "requests" "flask\n" "main" (by decide)).2.2⟩

/-- C6: when the `Package ... requires Python ...` pattern matches nowhere
but the bare `Requires-Python` pattern matches, the classifier still returns
a finding, with the package name defaulted to the sentinel
`unknown-package` and the constraint extracted. -/
theorem find_python_version_conflict_unknown_package (logs : String) (g : List Char)
    (h1 : searchPackageConflict logs.data = none)
    (h2 : searchRequiresPython logs.data = some g) :
    find_python_version_conflict logs = some ("unknown-package", String.mk g) := by
  unfold find_python_version_conflict
  rw [h1, h2]

/-- C6 (witness): a bare `Requires-Python` line yields the sentinel. -/
theorem find_python_version_conflict_unknown_package_w :
    find_python_version_conflict "Requires-Python >=3.8,<3.10"
      = some ("unknown-package", ">=3.8,<3.10") :=
  find_python_version_conflict_unknown_package "Requires-Python >=3.8,<3.10"
    ">=3.8,<3.10".data rfl rfl

/-- C10: the `Package X requires Python <constraint>` pattern outranks the
bare `Requires-Python` pattern by pattern order, not by position: whenever
both patterns match somewhere in the buffer, the returned package name comes
from the former. -/
theorem find_python_version_conflict_pattern_priority (logs : String)
    (p c g : List Char)
    (h1 : searchPackageConflict logs.data = some (p, c))
    (_h2 : searchRequiresPython logs.data = some g) :
    find_python_version_conflict logs = some (String.mk p, String.mk c) := by
  unfold find_python_version_conflict
  rw [h1]

/-- C10 (witness): the `Requires-Python` line occurs strictly earlier in the
buffer, yet the package name of the later `Package ... requires Python ...`
match is returned. -/
theorem find_python_version_conflict_pattern_priority_w :
    find_python_version_conflict
      "Requires-Python >=3.6\nPackage demo requires Python >=3.9"
      = some ("demo", ">=3.9") :=
  find_python_version_conflict_pattern_priority
    "Requires-Python >=3.6\nPackage demo requires Python >=3.9"
    "demo".data ">=3.9".data ">=3.6".data rfl rfl

/-- C7: the evidence excerpt is a bounded window — at most 20 log lines
(10 of lookback, the matched line, 9 of lookahead) — and its total length
never exceeds the 1800-character hard cap plus the 16-character truncation
marker, independently of the input log's size. -/
theorem make_log_excerpt_bounded (logs : String) :
    (make_log_excerpt logs).data.length ≤ 1816
    ∧ (excerptSnippet logs).length ≤ 20 := by
  constructor
  · unfold make_log_excerpt
    split
    · show (List.take 1800 _ ++ "\n... (truncated)".data).length ≤ 1816
      have hm : ("\n... (truncated)".data).length = 16 := by decide
      have ht := List.length_take_le 1800 (pyStrip (joinLines (excerptSnippet logs)))
      rw [List.length_append, hm]
      omega
    · next h =>
      show (pyStrip (joinLines (excerptSnippet logs))).length ≤ 1816
      omega
  · unfold excerptSnippet
    refine Nat.le_trans (List.length_take_le _ _) ?_
    omega

/-- C9: the empty log yields no finding from either classifier, and in
general a log on which both classifiers return `None` is classified as
nothing at all. -/
theorem classifiers_none_when_unmatched :
    find_missing_dependency "" = none
    ∧ find_python_version_conflict "" = none
    ∧ classify "" = none
    ∧ ∀ logs : String, find_missing_dependency logs = none →
        find_python_version_conflict logs = none → classify logs = none := by
  refine ⟨rfl, rfl, rfl, ?_⟩
  intro logs h1 h2
  unfold classify
  rw [h1, h2]

/-- C9 (witness): a log with no recognized pattern yields no finding. -/
theorem classifiers_none_when_unmatched_w :
    classify "all 12 checks passed" = none :=
  classifiers_none_when_unmatched.2.2.2 "all 12 checks passed" rfl rfl

/-- C8 (counterexample): the claim quantifies over every module name not
already present as an entry, but it fails on two such names.  For the name
`a`-VT-`b` (vertical tab inside) and the empty manifest the name is not
present as an entry, yet the rewritten file's entries are `a` and `b` —
`str.splitlines` splits at the vertical tab — not the old entries plus the
name.  For the empty name and manifest `a` the rewritten file ends with two
trailing newlines, not one. -/
theorem add_dependency_appends_preserving_cex :
    "a\u000bb".data ∉ pySplitlines ("" : String).data
    ∧ pySplitlines (add_dependency "a\u000bb" "").data
        ≠ pySplitlines ("" : String).data ++ ["a\u000bb".data]
    ∧ "".data ∉ pySplitlines ("a" : String).data
    ∧ trailingNewlines (add_dependency "" "a").data = 2 := by
  exact ⟨by decide, by decide, by decide, by decide⟩

/-- C8 (amended): for a nonempty module name free of Python line-boundary
characters and not already present as an entry, the mutation rewrites the
manifest so that its entries are exactly the old entries, in their original
order, followed by the new one, and the file ends with exactly one trailing
newline. -/
theorem add_dependency_appends_preserving (dep content : String)
    (hne : dep.data ≠ []) (hbf : ∀ c ∈ dep.data, isLineBreakChar c = false)
    (hmem : dep.data ∉ pySplitlines content.data) :
    pySplitlines (add_dependency dep content).data
      = pySplitlines content.data ++ [dep.data]
    ∧ trailingNewlines (add_dependency dep content).data = 1 :=
  ⟨add_dependency_lines dep content hbf hmem,
   add_dependency_trailing dep content hne hbf hmem⟩

/-- C8 (witness): appending to a two-entry manifest. -/
theorem add_dependency_appends_preserving_w :
    pySplitlines (add_dependency "requests" "flask\npytest\n").data
      = pySplitlines "flask\npytest\n".data ++ ["requests".data]
    ∧ trailingNewlines (add_dependency "requests" "flask\npytest\n").data = 1 :=
  add_dependency_appends_preserving "requests" "flask\npytest\n"
    (by decide) (by decide) (by decide)

/-- The missing-dependency matcher, attempted exactly at a well-formed
marker `No module named <q>M<q2>`, returns the quoted name. -/
theorem matchMissingDepAt_marker (Md suf : List Char) (q q2 : Char)
    (hq : isQuote q = true) (hq2 : isQuote q2 = true) (hM : Md ≠ [])
    (hMq : ∀ c ∈ Md, isQuote c = false) :
    matchMissingDepAt (nmnLit ++ q :: (Md ++ q2 :: suf)) = some Md := by
  unfold matchMissingDepAt
  rw [if_pos (List.isPrefixOf_iff_prefix.mpr (List.prefix_append _ _))]
  rw [List.drop_left]
  have hg : (Md ++ q2 :: suf).takeWhile (fun c => !isQuote c) = Md :=
    takeWhile_append_stop _ Md q2 suf (fun x hx => by rw [hMq x hx]; rfl)
      (by rw [hq2]; rfl)
  show (if isQuote q = true then
      if ((Md ++ q2 :: suf).takeWhile (fun c => !isQuote c)).isEmpty = true then none
      else if ((Md ++ q2 :: suf).takeWhile (fun c => !isQuote c)).length
          < (Md ++ q2 :: suf).length then
        some ((Md ++ q2 :: suf).takeWhile (fun c => !isQuote c))
      else none
    else none) = some Md
  rw [if_pos hq]
  simp only [hg]
  rw [if_neg (by simp [List.isEmpty_iff, hM])]
  rw [if_pos (by simp)]

/-- C5 (counterexample): the log contains a well-formed marker for the name
`y`, yet the classifier returns the empty string: the leftmost match of the
pattern is the degenerate marker quoting a lone space, and its group is
whitespace-stripped before being returned (agent.py line 43), so neither `y`
nor the leftmost marker's quoted text comes back — refuting both "returns M"
and "the leftmost one's name is returned" at this input. -/
theorem find_missing_dependency_extracts_leftmost_cex :
    find_missing_dependency "No module named ' ' No module named 'y'" = some "" := rfl

/-- C5 (amended): the classifier returns the whitespace-stripped group of
the leftmost pattern match; hence for every buffer decomposing as arbitrary
noise, then a well-formed `No module named <q>M<q2>` marker for a
whitespace-trimmed, nonempty, quote-free name `M`, then an arbitrary tail —
with no earlier position at which the pattern matches, i.e. this marker is
the leftmost match — it extracts exactly `M`, regardless of the noise, the
marker's position, the buffer's length, or any further markers in the tail
(a degenerate leftmost marker instead yields the empty string). -/
theorem find_missing_dependency_extracts_leftmost (pre Md suf : List Char) (q q2 : Char)
    (hq : isQuote q = true) (hq2 : isQuote q2 = true) (hM : Md ≠ [])
    (hMq : ∀ c ∈ Md, isQuote c = false) (hstrip : pyStrip Md = Md)
    (hpre : ∀ j, j < pre.length →
      matchMissingDepAt ((pre ++ (nmnLit ++ q :: (Md ++ q2 :: suf))).drop j) = none) :
    find_missing_dependency (String.mk (pre ++ (nmnLit ++ q :: (Md ++ q2 :: suf))))
      = some (String.mk Md) := by
  unfold find_missing_dependency
  show (scanFirst matchMissingDepAt (pre ++ (nmnLit ++ q :: (Md ++ q2 :: suf)))).map
      (fun g => String.mk (pyStrip g)) = some (String.mk Md)
  rw [scanFirst_append_none matchMissingDepAt pre _ hpre]
  rw [scanFirst_head_some matchMissingDepAt _ Md
    (matchMissingDepAt_marker Md suf q q2 hq hq2 hM hMq)]
  simp [hstrip]

/-- C5 (witness): the marker sits after noise and a second marker follows in
the tail; the leftmost name is extracted. -/
theorem find_missing_dependency_extracts_leftmost_w :
    find_missing_dependency (String.mk ("boot\n".data
        ++ (nmnLit ++ '\'' :: ("requests".data ++ '\'' :: " No module named 'flask'".data))))
      = some (String.mk "requests".data) :=
  find_missing_dependency_extracts_leftmost "boot\n".data "requests".data
    " No module named 'flask'".data '\'' '\''
    (by decide) (by decide) (by decide) (by decide) (by decide) (by decide)

/-- C3 (counterexample): the claim says that any log containing both a
missing-dependency marker and a version-conflict marker classifies as
`MissingDependency`.  This log matches the `No module named ['\"]...['\"]`
pattern (with the all-whitespace quoted name `' '`) and a version-conflict
marker, yet run's dispatch classifies it as `RuntimeVersionConflict`: the
extracted name strips to the empty string, which is falsy in Python
(`if dep:`, agent.py line 175), so the missing-dependency branch is skipped
and level 2 fires. -/
theorem classify_priority_cex :
    classify "No module named ' ' Requires-Python >=3.8"
      = some (Finding.runtimeVersionConflict "unknown-package" ">=3.8") := rfl

/-- C3 (amended): for every log text on which the missing-dependency pattern
matches with a module name that is nonempty after whitespace-stripping, and
the version-conflict classifier also matches, classification returns the
`MissingDependency` finding — the dependency pattern outranks the
version-conflict patterns regardless of where either marker sits in the
buffer.  (When the extracted name strips to the empty string the
missing-dependency branch is skipped by Python truthiness and the
version-conflict finding is returned instead.) -/
theorem classify_priority_missing_dependency (logs m : String) (vc : String × String)
    (h1 : find_missing_dependency logs = some m) (hm : m.data ≠ [])
    (_h2 : find_python_version_conflict logs = some vc) :
    classify logs = some (Finding.missingDependency m) := by
  unfold classify
  rw [h1]
  simp [List.isEmpty_iff, hm]

/-- C3 (witness): both markers present, dependency outranks the conflict
even though the conflict marker comes first in the buffer. -/
theorem classify_priority_missing_dependency_w :
    classify "Requires-Python >=3.8\nNo module named 'flask'"
      = some (Finding.missingDependency "flask") :=
  classify_priority_missing_dependency "Requires-Python >=3.8\nNo module named 'flask'"
    "flask" ("unknown-package", ">=3.8") rfl (by decide) rfl

/-- C4: a log classified as `RuntimeVersionConflict` makes the run post a
single diagnosis comment and nothing else, for either approval state: no
manifest write, no commit/push, and the manifest content is returned
unchanged. -/
theorem version_conflict_never_mutates (logs manifest branch : String) (approved : Bool)
    (pkg constraint : String)
    (h : classify logs = some (Finding.runtimeVersionConflict pkg constraint)) :
    (runAgent logs approved manifest branch).1
      = [AgentAction.postComment (Msg.versionConflict pkg constraint)]
    ∧ (runAgent logs approved manifest branch).2 = manifest := by
  unfold classify at h
  unfold runAgent runConflictOrFallback
  cases hfd : find_missing_dependency logs with
  | none =>
    simp only [hfd] at h
    cases hvc : find_python_version_conflict logs with
    | none =>
      simp only [hvc] at h
      exact Option.noConfusion h
    | some pc =>
      obtain ⟨p0, c0⟩ := pc
      simp only [hvc, Option.some.injEq, Finding.runtimeVersionConflict.injEq] at h
      simp [hvc, h.1, h.2]
  | some dep =>
    simp only [hfd] at h
    by_cases hde : dep.data.isEmpty = true
    · rw [if_pos hde] at h
      cases hvc : find_python_version_conflict logs with
      | none =>
        simp only [hvc] at h
        exact Option.noConfusion h
      | some pc =>
        obtain ⟨p0, c0⟩ := pc
        simp only [hvc, Option.some.injEq, Finding.runtimeVersionConflict.injEq] at h
        simp [hvc, hde, h.1, h.2]
    · rw [if_neg hde] at h
      simp at h

/-- C4 (witness): a version-conflict log under the approved state leaves the
manifest untouched and posts only the diagnosis comment. -/
theorem version_conflict_never_mutates_w :
    (runAgent "Requires-Python >=3.8,<3.10" true "flask\n" "main").1
      = [AgentAction.postComment (Msg.versionConflict "unknown-package" ">=3.8,<3.10")]
    ∧ (runAgent "Requires-Python >=3.8,<3.10" true "flask\n" "main").2 = "flask\n" :=
  version_conflict_never_mutates "Requires-Python >=3.8,<3.10" "flask\n" "main" true
    "unknown-package" ">=3.8,<3.10" rfl
